import Mathlib

/-!
Shallow embedding of the `DungeonGenFHE` Solidity contract
(src/frontend/web/src/App.tsx, lines 792-1045).

Ciphertext handles (`euint32` values produced by the external FHE
capability) are modelled as syntax trees: `FHE.add`/`FHE.mul` return fresh
handles deterministically derived from their operands, which the free
constructors `CT.add`/`CT.mul` capture; `decrypt` gives the plaintext
semantics modulo 2^32. The keccak256 state hash is modelled as an
idealised collision-free digest (`HashV.mk` is injective), which is the
collision-resistance assumption the contract relies on. Reverts are
modelled by `Except.error`: a failing call leaves the state unchanged,
matching EVM rollback semantics. `block.timestamp`, `msg.sender` and the
oracle-issued `requestId` are explicit parameters of each entry point.
-/

namespace DungeonGenFHE

/-- Opaque euint32 ciphertext handle: a literal encryption, or a handle
derived by the homomorphic add / mul capability. -/
inductive CT where
  | enc : Nat → CT
  | add : CT → CT → CT
  | mul : CT → CT → CT
deriving DecidableEq, Repr

/-- Plaintext semantics of a handle (euint32 arithmetic, modulo 2^32). -/
def decrypt : CT → Nat
  | CT.enc n => n % 2 ^ 32
  | CT.add a b => (decrypt a + decrypt b) % 2 ^ 32
  | CT.mul a b => (decrypt a * decrypt b) % 2 ^ 32

/-- Size of a handle's derivation tree (used to show a derived handle is
never equal to one of its operands). -/
def ctSize : CT → Nat
  | CT.enc _ => 1
  | CT.add a b => ctSize a + ctSize b + 1
  | CT.mul a b => ctSize a + ctSize b + 1

/-- Idealised collision-free digest: the default bytes32 zero, or the
digest of an ordered list of handles salted with the contract address
(`keccak256(abi.encode(cts, address(this)))` in the source). -/
inductive HashV where
  | zero : HashV
  | mk : List CT → Nat → HashV
deriving DecidableEq, Repr

/-- The contract's custom errors, plus the revert raised by
`FHE.checkSignatures` on an invalid proof. -/
inductive Err where
  | NotOwner
  | NotProvider
  | Paused
  | CooldownActive
  | BatchClosed
  | ReplayAttempt
  | StateMismatch
  | InvalidBatchId
  | ProofInvalid
deriving DecidableEq, Repr

/-- `struct DecryptionContext { uint256 batchId; bytes32 stateHash; bool processed; }` -/
structure DecryptionContext where
  batchId : Nat
  stateHash : HashV
  processed : Bool
deriving DecidableEq, Repr

/-- `struct Batch` with its id, open flag, three encrypted accumulators and
the encrypted dungeon seed. The Solidity field `open` is a Lean keyword and
is rendered `isOpen`. -/
structure Batch where
  id : Nat
  isOpen : Bool
  totalEncryptedPartyStrength : CT
  totalEncryptedPartyAgility : CT
  totalEncryptedPartyIntellect : CT
  dungeonSeed : CT
deriving DecidableEq, Repr

/-- The contract storage. Mappings are total functions with Solidity
default values; `self` is `address(this)`, fixed at construction. -/
structure ContractState where
  owner : Nat
  providers : Nat → Bool
  paused : Bool
  cooldownSeconds : Nat
  lastSubmissionTime : Nat → Nat
  lastDecryptionRequestTime : Nat → Nat
  decryptionContexts : Nat → DecryptionContext
  batches : Nat → Batch
  currentBatchId : Nat
  self : Nat

/-- Pointwise update of a storage mapping. -/
def updateF {α : Type} (f : Nat → α) (k : Nat) (v : α) : Nat → α :=
  fun x => if x = k then v else f x

/-- The Solidity default `Batch` (all fields zero; a zero word read as a
handle is the zero-literal handle). -/
def defaultBatch : Batch :=
  ⟨0, false, CT.enc 0, CT.enc 0, CT.enc 0, CT.enc 0⟩

/-- The Solidity default `DecryptionContext`. -/
def defaultContext : DecryptionContext :=
  ⟨0, HashV.zero, false⟩

/-- `_hashCiphertexts`: digest of the handle list salted with the contract
address. -/
def hashCiphertexts (cts : List CT) (selfAddr : Nat) : HashV :=
  HashV.mk cts selfAddr

/-- The constructor: deployer becomes owner and provider, cooldown defaults
to 30 seconds, everything else takes Solidity defaults
(`currentBatchId = 1`). -/
def constructor (sender selfAddr : Nat) : ContractState where
  owner := sender
  providers := updateF (fun _ => false) sender true
  paused := false
  cooldownSeconds := 30
  lastSubmissionTime := fun _ => 0
  lastDecryptionRequestTime := fun _ => 0
  decryptionContexts := fun _ => defaultContext
  batches := fun _ => defaultBatch
  currentBatchId := 1
  self := selfAddr

/-- `transferOwnership(address)`: owner-only. -/
def transferOwnership (s : ContractState) (sender newOwner : Nat) :
    Except Err ContractState :=
  if sender ≠ s.owner then Except.error Err.NotOwner
  else Except.ok { s with owner := newOwner }

/-- `addProvider(address)`: owner-only. -/
def addProvider (s : ContractState) (sender p : Nat) :
    Except Err ContractState :=
  if sender ≠ s.owner then Except.error Err.NotOwner
  else Except.ok { s with providers := updateF s.providers p true }

/-- `removeProvider(address)`: owner-only. -/
def removeProvider (s : ContractState) (sender p : Nat) :
    Except Err ContractState :=
  if sender ≠ s.owner then Except.error Err.NotOwner
  else Except.ok { s with providers := updateF s.providers p false }

/-- `setPaused(bool)`: owner-only; assigns only when the value changes
(the resulting storage is the same either way). -/
def setPaused (s : ContractState) (sender : Nat) (b : Bool) :
    Except Err ContractState :=
  if sender ≠ s.owner then Except.error Err.NotOwner
  else Except.ok (if s.paused = b then s else { s with paused := b })

/-- `setCooldownSeconds(uint256)`: owner-only. -/
def setCooldownSeconds (s : ContractState) (sender c : Nat) :
    Except Err ContractState :=
  if sender ≠ s.owner then Except.error Err.NotOwner
  else Except.ok { s with cooldownSeconds := c }

/-- `openBatch()`: `onlyOwner` then `whenNotPaused`; if the current batch
is open, `currentBatchId` is incremented first; then a fresh batch with
zero-handle accumulators is written at the (possibly new) current id.
The superseded batch record itself is not modified. -/
def openBatch (s : ContractState) (sender : Nat) : Except Err ContractState :=
  if sender ≠ s.owner then Except.error Err.NotOwner
  else if s.paused = true then Except.error Err.Paused
  else
    let cid := if (s.batches s.currentBatchId).isOpen then s.currentBatchId + 1
               else s.currentBatchId
    Except.ok { s with
      currentBatchId := cid,
      batches := updateF s.batches cid
        ⟨cid, true, CT.enc 0, CT.enc 0, CT.enc 0, CT.enc 0⟩ }

/-- `closeBatch()`: `onlyOwner` then `whenNotPaused`; fails with
`BatchClosed` if the current batch is not open, otherwise clears its open
flag. -/
def closeBatch (s : ContractState) (sender : Nat) : Except Err ContractState :=
  if sender ≠ s.owner then Except.error Err.NotOwner
  else if s.paused = true then Except.error Err.Paused
  else if (s.batches s.currentBatchId).isOpen = false then Except.error Err.BatchClosed
  else Except.ok { s with
    batches := updateF s.batches s.currentBatchId
      { s.batches s.currentBatchId with isOpen := false } }

/-- `submitPartyAttributes`: `onlyProvider`, `whenNotPaused`, submission
cooldown, batch open; then records the submission time and homomorphically
adds the three contributions into the current batch's accumulators. -/
def submitPartyAttributes (s : ContractState) (sender now : Nat)
    (encryptedStrength encryptedAgility encryptedIntellect : CT) :
    Except Err ContractState :=
  if s.providers sender = false then Except.error Err.NotProvider
  else if s.paused = true then Except.error Err.Paused
  else if now < s.lastSubmissionTime sender + s.cooldownSeconds then
    Except.error Err.CooldownActive
  else if (s.batches s.currentBatchId).isOpen = false then Except.error Err.BatchClosed
  else
    let b := s.batches s.currentBatchId
    Except.ok { s with
      lastSubmissionTime := updateF s.lastSubmissionTime sender now,
      batches := updateF s.batches s.currentBatchId
        { b with
          totalEncryptedPartyStrength := CT.add b.totalEncryptedPartyStrength encryptedStrength,
          totalEncryptedPartyAgility := CT.add b.totalEncryptedPartyAgility encryptedAgility,
          totalEncryptedPartyIntellect := CT.add b.totalEncryptedPartyIntellect encryptedIntellect } }

/-- `generateDungeonSeed`: `onlyProvider`, `whenNotPaused`, decryption
cooldown, batch open; computes the seed handle
`FHE.add(FHE.mul(strength, agility), intellect)`, stores it, snapshots the
four current handles into a state hash, and registers the pending
`DecryptionContext` under the oracle-issued `requestId`. -/
def generateDungeonSeed (s : ContractState) (sender now requestId : Nat) :
    Except Err ContractState :=
  if s.providers sender = false then Except.error Err.NotProvider
  else if s.paused = true then Except.error Err.Paused
  else if now < s.lastDecryptionRequestTime sender + s.cooldownSeconds then
    Except.error Err.CooldownActive
  else if (s.batches s.currentBatchId).isOpen = false then Except.error Err.BatchClosed
  else
    let b := s.batches s.currentBatchId
    let seed := CT.add (CT.mul b.totalEncryptedPartyStrength b.totalEncryptedPartyAgility)
                       b.totalEncryptedPartyIntellect
    let b2 := { b with dungeonSeed := seed }
    let stateHash := hashCiphertexts
      [b2.totalEncryptedPartyStrength, b2.totalEncryptedPartyAgility,
       b2.totalEncryptedPartyIntellect, b2.dungeonSeed] s.self
    Except.ok { s with
      lastDecryptionRequestTime := updateF s.lastDecryptionRequestTime sender now,
      batches := updateF s.batches s.currentBatchId b2,
      decryptionContexts := updateF s.decryptionContexts requestId
        ⟨s.currentBatchId, stateHash, false⟩ }

/-- `myCallback(requestId, cleartexts, proof)`: public, no caller check in
the source (the unused `sender` parameter records who called). Checks, in
source order: replay, batch existence, state hash, then proof
(`FHE.checkSignatures`, modelled by the `proofValid` flag); on success
marks the context processed. -/
def myCallback (s : ContractState) (sender requestId : Nat)
    (cleartexts : Nat × Nat × Nat × Nat) (proofValid : Bool) :
    Except Err ContractState :=
  let ctx := s.decryptionContexts requestId
  if ctx.processed = true then Except.error Err.ReplayAttempt
  else
    let batch := s.batches ctx.batchId
    if batch.id = 0 then Except.error Err.InvalidBatchId
    else
      let currentHash := hashCiphertexts
        [batch.totalEncryptedPartyStrength, batch.totalEncryptedPartyAgility,
         batch.totalEncryptedPartyIntellect, batch.dungeonSeed] s.self
      if currentHash = ctx.stateHash then
        if proofValid = false then Except.error Err.ProofInvalid
        else Except.ok { s with
          decryptionContexts := updateF s.decryptionContexts requestId
            { ctx with processed := true } }
      else Except.error Err.StateMismatch

/-- Unwrap a call result, falling back to a default state (used only to
chain concrete example executions). -/
def runOr (r : Except Err ContractState) (d : ContractState) : ContractState :=
  match r with
  | Except.ok s => s
  | Except.error _ => d

/-- Whether a call succeeded. -/
def exceptOk (r : Except Err ContractState) : Bool :=
  match r with
  | Except.ok _ => true
  | Except.error _ => false

/-! Concrete executions used by witnesses and counterexamples. The
deployer is address 1 and the contract address is 7. -/

/-- Freshly deployed contract: owner 1, providers {1}. -/
def sA0 : ContractState := constructor 1 7

/-- Owner adds address 2 as a provider. -/
def sA1 : ContractState := runOr (addProvider sA0 1 2) sA0

/-- Owner opens the first batch (id 1). -/
def sA2 : ContractState := runOr (openBatch sA1 1) sA0

/-- Provider 1 submits plaintext-equivalent (5,3,4) at time 100. -/
def sA3 : ContractState :=
  runOr (submitPartyAttributes sA2 1 100 (CT.enc 5) (CT.enc 3) (CT.enc 4)) sA0

/-- Provider 2 submits plaintext-equivalent (4,5,2) at time 100. -/
def sA4 : ContractState :=
  runOr (submitPartyAttributes sA3 2 100 (CT.enc 4) (CT.enc 5) (CT.enc 2)) sA0

/-- Provider 1 requests seed generation at time 100; the oracle issues
request id 42. -/
def sA5 : ContractState := runOr (generateDungeonSeed sA4 1 100 42) sA0

/-- Provider 2 submits again at time 200, after the decryption request of
`sA5` but before its callback. -/
def sA6 : ContractState :=
  runOr (submitPartyAttributes sA5 2 200 (CT.enc 1) (CT.enc 1) (CT.enc 1)) sA0

/-- Owner opens the first batch with no further submissions. -/
def sB1 : ContractState := runOr (openBatch sA0 1) sA0

/-- Owner requests seed generation at time 100; request id 42. -/
def sB2 : ContractState := runOr (generateDungeonSeed sB1 1 100 42) sA0

/-- The oracle's callback for request 42 with a valid proof, delivered with
no intervening contribution: it succeeds. -/
def sB3 : ContractState := runOr (myCallback sB2 9 42 (0, 0, 0, 0) true) sA0

/-- Owner pauses the freshly deployed contract. -/
def sP1 : ContractState := runOr (setPaused sA0 1 true) sA0

/-- Owner opens a second batch while batch 1 is still open. -/
def sC2 : ContractState := runOr (openBatch sB1 1) sA0

/-- Owner closes batch 1. -/
def sD1 : ContractState := runOr (closeBatch sB1 1) sA0

/-- Owner calls openBatch again after closing batch 1: id 1 is reused. -/
def sD2 : ContractState := runOr (openBatch sD1 1) sA0

/-- Owner 1 transfers ownership to address 2, which is not a provider. -/
def sE2 : ContractState := runOr (transferOwnership sB1 1 2) sA0

/-! Basic lemmas about the model. -/

/-- Reading a mapping at the key just written returns the written value. -/
@[simp]
theorem updateF_same {α : Type} (f : Nat → α) (k : Nat) (v : α) :
    updateF f k v k = v := by
  simp [updateF]

/-- Reading a mapping at any other key is unaffected by an update. -/
theorem updateF_ne {α : Type} (f : Nat → α) (k : Nat) (v : α) (x : Nat)
    (h : x ≠ k) : updateF f k v x = f x := by
  simp [updateF, h]

/-- A handle returned by the homomorphic add capability is a fresh handle,
never equal to its own left operand. -/
theorem ct_add_ne (a b : CT) : CT.add a b ≠ a := by
  intro h
  have hs : ctSize (CT.add a b) = ctSize a := congrArg ctSize h
  simp only [ctSize] at hs
  omega

/-- Inversion for a successful `submitPartyAttributes` call: all four
guards passed and the new state updates exactly the submission time and
the current batch's accumulators. -/
theorem submitPartyAttributes_ok (s s' : ContractState) (sender now : Nat)
    (vs va vi : CT)
    (h : submitPartyAttributes s sender now vs va vi = Except.ok s') :
    s.providers sender = true ∧ s.paused = false ∧
    s.lastSubmissionTime sender + s.cooldownSeconds ≤ now ∧
    (s.batches s.currentBatchId).isOpen = true ∧
    s' = { s with
      lastSubmissionTime := updateF s.lastSubmissionTime sender now,
      batches := updateF s.batches s.currentBatchId
        { s.batches s.currentBatchId with
          totalEncryptedPartyStrength :=
            CT.add (s.batches s.currentBatchId).totalEncryptedPartyStrength vs,
          totalEncryptedPartyAgility :=
            CT.add (s.batches s.currentBatchId).totalEncryptedPartyAgility va,
          totalEncryptedPartyIntellect :=
            CT.add (s.batches s.currentBatchId).totalEncryptedPartyIntellect vi } } := by
  unfold submitPartyAttributes at h
  split at h
  next h1 => exact Except.noConfusion h
  next h1 =>
    split at h
    next h2 => exact Except.noConfusion h
    next h2 =>
      split at h
      next h3 => exact Except.noConfusion h
      next h3 =>
        split at h
        next h4 => exact Except.noConfusion h
        next h4 =>
          simp only [Except.ok.injEq] at h
          exact ⟨eq_true_of_ne_false h1, Bool.eq_false_iff.mpr (by exact h2),
            Nat.le_of_not_lt h3, eq_true_of_ne_false h4, h.symm⟩

/-- Inversion for a successful `generateDungeonSeed` call: all four guards
passed, and the new state records the request time, stores the derived
seed handle on the current batch, and registers a fresh unprocessed
context whose hash snapshots the four current handles. -/
theorem generateDungeonSeed_ok (s s' : ContractState) (sender now rid : Nat)
    (h : generateDungeonSeed s sender now rid = Except.ok s') :
    s.providers sender = true ∧ s.paused = false ∧
    s.lastDecryptionRequestTime sender + s.cooldownSeconds ≤ now ∧
    (s.batches s.currentBatchId).isOpen = true ∧
    s' = { s with
      lastDecryptionRequestTime := updateF s.lastDecryptionRequestTime sender now,
      batches := updateF s.batches s.currentBatchId
        { s.batches s.currentBatchId with
          dungeonSeed :=
            CT.add (CT.mul (s.batches s.currentBatchId).totalEncryptedPartyStrength
                           (s.batches s.currentBatchId).totalEncryptedPartyAgility)
                   (s.batches s.currentBatchId).totalEncryptedPartyIntellect },
      decryptionContexts := updateF s.decryptionContexts rid
        ⟨s.currentBatchId,
         hashCiphertexts
           [(s.batches s.currentBatchId).totalEncryptedPartyStrength,
            (s.batches s.currentBatchId).totalEncryptedPartyAgility,
            (s.batches s.currentBatchId).totalEncryptedPartyIntellect,
            CT.add (CT.mul (s.batches s.currentBatchId).totalEncryptedPartyStrength
                           (s.batches s.currentBatchId).totalEncryptedPartyAgility)
                   (s.batches s.currentBatchId).totalEncryptedPartyIntellect] s.self,
         false⟩ } := by
  unfold generateDungeonSeed at h
  split at h
  next h1 => exact Except.noConfusion h
  next h1 =>
    split at h
    next h2 => exact Except.noConfusion h
    next h2 =>
      split at h
      next h3 => exact Except.noConfusion h
      next h3 =>
        split at h
        next h4 => exact Except.noConfusion h
        next h4 =>
          simp only [Except.ok.injEq] at h
          exact ⟨eq_true_of_ne_false h1, Bool.eq_false_iff.mpr (by exact h2),
            Nat.le_of_not_lt h3, eq_true_of_ne_false h4, h.symm⟩

/-- Inversion for a successful `openBatch` call. -/
theorem openBatch_ok (s s' : ContractState) (sender : Nat)
    (h : openBatch s sender = Except.ok s') :
    sender = s.owner ∧ s.paused = false ∧
    s' = { s with
      currentBatchId :=
        if (s.batches s.currentBatchId).isOpen then s.currentBatchId + 1
        else s.currentBatchId,
      batches := updateF s.batches
        (if (s.batches s.currentBatchId).isOpen then s.currentBatchId + 1
         else s.currentBatchId)
        ⟨(if (s.batches s.currentBatchId).isOpen then s.currentBatchId + 1
          else s.currentBatchId),
         true, CT.enc 0, CT.enc 0, CT.enc 0, CT.enc 0⟩ } := by
  unfold openBatch at h
  split at h
  next h1 => exact Except.noConfusion h
  next h1 =>
    split at h
    next h2 => exact Except.noConfusion h
    next h2 =>
      simp only [Except.ok.injEq] at h
      exact ⟨Decidable.of_not_not (fun hne => h1 hne), Bool.eq_false_iff.mpr (by exact h2), h.symm⟩

/-- Inversion for a successful `myCallback` call: the context was pending
(not processed), its batch exists, the recomputed hash matched the stored
snapshot, the proof was valid, and the only state change is marking the
context processed. -/
theorem myCallback_ok (s s' : ContractState) (sender rid : Nat)
    (clr : Nat × Nat × Nat × Nat) (pv : Bool)
    (h : myCallback s sender rid clr pv = Except.ok s') :
    (s.decryptionContexts rid).processed = false ∧
    (s.batches (s.decryptionContexts rid).batchId).id ≠ 0 ∧
    hashCiphertexts
      [(s.batches (s.decryptionContexts rid).batchId).totalEncryptedPartyStrength,
       (s.batches (s.decryptionContexts rid).batchId).totalEncryptedPartyAgility,
       (s.batches (s.decryptionContexts rid).batchId).totalEncryptedPartyIntellect,
       (s.batches (s.decryptionContexts rid).batchId).dungeonSeed] s.self
      = (s.decryptionContexts rid).stateHash ∧
    pv = true ∧
    s' = { s with
      decryptionContexts := updateF s.decryptionContexts rid
        { s.decryptionContexts rid with processed := true } } := by
  simp only [myCallback] at h
  by_cases h1 : (s.decryptionContexts rid).processed = true
  · rw [if_pos h1] at h
    exact Except.noConfusion h
  · rw [if_neg h1] at h
    by_cases h2 : (s.batches (s.decryptionContexts rid).batchId).id = 0
    · rw [if_pos h2] at h
      exact Except.noConfusion h
    · rw [if_neg h2] at h
      by_cases h3 : hashCiphertexts
          [(s.batches (s.decryptionContexts rid).batchId).totalEncryptedPartyStrength,
           (s.batches (s.decryptionContexts rid).batchId).totalEncryptedPartyAgility,
           (s.batches (s.decryptionContexts rid).batchId).totalEncryptedPartyIntellect,
           (s.batches (s.decryptionContexts rid).batchId).dungeonSeed] s.self
          = (s.decryptionContexts rid).stateHash
      · rw [if_pos h3] at h
        by_cases h4 : pv = false
        · rw [if_pos h4] at h
          exact Except.noConfusion h
        · rw [if_neg h4] at h
          simp only [Except.ok.injEq] at h
          exact ⟨Bool.eq_false_iff.mpr (by exact h1), h2, h3,
            eq_true_of_ne_false h4, h.symm⟩
      · rw [if_neg h3] at h
        exact Except.noConfusion h

/-- If a pending (unprocessed) context references an existing batch and the
digest of that batch's current four handles differs from the stored
snapshot, the callback fails with StateMismatch — before the proof flag is
ever consulted. -/
theorem callback_hash_ne_stateMismatch (s : ContractState) (sender rid : Nat)
    (clr : Nat × Nat × Nat × Nat) (pv : Bool)
    (h1 : (s.decryptionContexts rid).processed = false)
    (h2 : (s.batches (s.decryptionContexts rid).batchId).id ≠ 0)
    (h3 : hashCiphertexts
      [(s.batches (s.decryptionContexts rid).batchId).totalEncryptedPartyStrength,
       (s.batches (s.decryptionContexts rid).batchId).totalEncryptedPartyAgility,
       (s.batches (s.decryptionContexts rid).batchId).totalEncryptedPartyIntellect,
       (s.batches (s.decryptionContexts rid).batchId).dungeonSeed] s.self
      ≠ (s.decryptionContexts rid).stateHash) :
    myCallback s sender rid clr pv = Except.error Err.StateMismatch := by
  simp only [myCallback]
  rw [if_neg (by simp [h1]), if_neg h2, if_neg h3]

/-- Claim C1: for every stored DecryptionContext that is still pending on
an existing batch, if the batch's current four ciphertext handles hash to
a value different from the context's stored state hash, then the callback
fails with StateMismatch for every proof-validity value (the state check
precedes proof verification); and in particular, whenever a
submitPartyAttributes call succeeds on the batch after generateDungeonSeed
created the context, the callback fails with StateMismatch even with a
valid proof. -/
theorem stale_snapshot_state_mismatch :
    (∀ (s : ContractState) (sender rid : Nat) (clr : Nat × Nat × Nat × Nat) (pv : Bool),
      (s.decryptionContexts rid).processed = false →
      (s.batches (s.decryptionContexts rid).batchId).id ≠ 0 →
      hashCiphertexts
        [(s.batches (s.decryptionContexts rid).batchId).totalEncryptedPartyStrength,
         (s.batches (s.decryptionContexts rid).batchId).totalEncryptedPartyAgility,
         (s.batches (s.decryptionContexts rid).batchId).totalEncryptedPartyIntellect,
         (s.batches (s.decryptionContexts rid).batchId).dungeonSeed] s.self
        ≠ (s.decryptionContexts rid).stateHash →
      myCallback s sender rid clr pv = Except.error Err.StateMismatch) ∧
    (∀ (s s1 s2 : ContractState) (p q now now2 rid : Nat) (vs va vi : CT)
       (sender : Nat) (clr : Nat × Nat × Nat × Nat),
      (s.batches s.currentBatchId).id ≠ 0 →
      generateDungeonSeed s p now rid = Except.ok s1 →
      submitPartyAttributes s1 q now2 vs va vi = Except.ok s2 →
      myCallback s2 sender rid clr true = Except.error Err.StateMismatch) := by
  constructor
  · intro s sender rid clr pv h1 h2 h3
    exact callback_hash_ne_stateMismatch s sender rid clr pv h1 h2 h3
  · intro s s1 s2 p q now now2 rid vs va vi sender clr hid hg hs
    obtain ⟨-, -, -, -, hs1⟩ := generateDungeonSeed_ok s s1 p now rid hg
    subst hs1
    obtain ⟨-, -, -, -, hs2⟩ := submitPartyAttributes_ok _ s2 q now2 vs va vi hs
    subst hs2
    apply callback_hash_ne_stateMismatch
    · simp [updateF]
    · simpa [updateF] using hid
    · simp [updateF, hashCiphertexts, ct_add_ne]

/-- Claim C2: a successful callback flips the context's processed flag
from false to true; a callback on an already-processed context fails with
ReplayAttempt; and no callback (for any request id) ever resets a
processed flag back to false. -/
theorem processed_replay_protection :
    (∀ (s s' : ContractState) (sender rid : Nat) (clr : Nat × Nat × Nat × Nat) (pv : Bool),
      myCallback s sender rid clr pv = Except.ok s' →
      (s.decryptionContexts rid).processed = false ∧
      (s'.decryptionContexts rid).processed = true) ∧
    (∀ (s : ContractState) (sender rid : Nat) (clr : Nat × Nat × Nat × Nat) (pv : Bool),
      (s.decryptionContexts rid).processed = true →
      myCallback s sender rid clr pv = Except.error Err.ReplayAttempt) ∧
    (∀ (s s' : ContractState) (sender rid rid2 : Nat) (clr : Nat × Nat × Nat × Nat) (pv : Bool),
      myCallback s sender rid2 clr pv = Except.ok s' →
      (s.decryptionContexts rid).processed = true →
      (s'.decryptionContexts rid).processed = true) := by
  refine ⟨?_, ?_, ?_⟩
  · intro s s' sender rid clr pv h
    obtain ⟨hp, -, -, -, hs'⟩ := myCallback_ok s s' sender rid clr pv h
    subst hs'
    exact ⟨hp, by simp [updateF]⟩
  · intro s sender rid clr pv h
    simp only [myCallback]
    rw [if_pos h]
  · intro s s' sender rid rid2 clr pv h hp
    obtain ⟨hp2, -, -, -, hs'⟩ := myCallback_ok s s' sender rid2 clr pv h
    subst hs'
    by_cases he : rid = rid2
    · subst he
      rw [hp] at hp2
      exact Bool.noConfusion hp2
    · simpa [updateF_ne _ _ _ _ he] using hp

/-- Concrete run of claim C1: request 42 is issued on batch 1, provider 2
then submits, and the callback for request 42 fails with StateMismatch
even though its proof is valid. -/
theorem stale_snapshot_state_mismatch_witness :
    myCallback sA6 9 42 (9, 8, 6, 78) true = Except.error Err.StateMismatch :=
  stale_snapshot_state_mismatch.2 sA4 sA5 sA6 1 2 100 200 42
    (CT.enc 1) (CT.enc 1) (CT.enc 1) 9 (9, 8, 6, 78)
    (by decide) rfl rfl

/-- Concrete run of claim C2: the callback for request 42 succeeds once,
marks the context processed, and a second identical callback fails with
ReplayAttempt. -/
theorem processed_replay_protection_witness :
    (sB3.decryptionContexts 42).processed = true ∧
    myCallback sB3 9 42 (0, 0, 0, 0) true = Except.error Err.ReplayAttempt :=
  ⟨(processed_replay_protection.1 sB2 sB3 9 42 (0, 0, 0, 0) true rfl).2,
   processed_replay_protection.2.1 sB3 9 42 (0, 0, 0, 0) true rfl⟩

/-- Counterexample to claim C3: with the contract paused, a call from the
non-provider address 2 fails with NotProvider, not Paused — the source
lists the onlyProvider modifier before whenNotPaused, so the role check
runs first. -/
theorem role_checked_before_pause_cex :
    sP1.paused = true ∧ sP1.providers 2 = false ∧
    submitPartyAttributes sP1 2 50 (CT.enc 1) (CT.enc 1) (CT.enc 1)
      = Except.error Err.NotProvider ∧
    generateDungeonSeed sP1 2 50 43 = Except.error Err.NotProvider :=
  ⟨rfl, rfl, rfl, rfl⟩

/-- Claim C3 as amended: in submitPartyAttributes and generateDungeonSeed
the provider check runs before the pause check — a non-provider always
gets NotProvider (even while paused), and a provider calling while paused
gets Paused (before cooldown and batch-state checks). -/
theorem role_checked_before_pause :
    ∀ (s : ContractState) (sender now rid : Nat) (vs va vi : CT),
      (s.providers sender = false →
        submitPartyAttributes s sender now vs va vi = Except.error Err.NotProvider ∧
        generateDungeonSeed s sender now rid = Except.error Err.NotProvider) ∧
      (s.providers sender = true → s.paused = true →
        submitPartyAttributes s sender now vs va vi = Except.error Err.Paused ∧
        generateDungeonSeed s sender now rid = Except.error Err.Paused) := by
  intro s sender now rid vs va vi
  constructor
  · intro hp
    constructor
    · simp only [submitPartyAttributes]
      rw [if_pos hp]
    · simp only [generateDungeonSeed]
      rw [if_pos hp]
  · intro hp hpaus
    constructor
    · simp only [submitPartyAttributes]
      rw [if_neg (by simp [hp]), if_pos hpaus]
    · simp only [generateDungeonSeed]
      rw [if_neg (by simp [hp]), if_pos hpaus]

/-- Concrete run of the amended claim C3: while paused, the provider 1
gets Paused and the non-provider 2 gets NotProvider. -/
theorem role_checked_before_pause_witness :
    submitPartyAttributes sP1 1 50 (CT.enc 1) (CT.enc 1) (CT.enc 1)
      = Except.error Err.Paused ∧
    generateDungeonSeed sP1 2 50 43 = Except.error Err.NotProvider :=
  ⟨((role_checked_before_pause sP1 1 50 43 (CT.enc 1) (CT.enc 1) (CT.enc 1)).2
      rfl rfl).1,
   ((role_checked_before_pause sP1 2 50 43 (CT.enc 1) (CT.enc 1) (CT.enc 1)).1
      rfl).2⟩

/-- Counterexample to claim C4: opening a second batch while batch 1 is
open leaves the superseded batch record with its open flag still true, so
two batch records have open = true at once. -/
theorem superseded_batch_stays_open_cex :
    sC2.currentBatchId = 2 ∧ (sC2.batches 1).isOpen = true ∧
    (sC2.batches 2).isOpen = true ∧ (1 : Nat) ≠ 2 :=
  ⟨rfl, rfl, rfl, by decide⟩

/-- Claim C4 as amended: opening a batch while the current one is open
advances currentBatchId and opens the new batch, but leaves the superseded
batch record entirely unchanged — its open flag stays true. Only the
current batch is active in the sense that all mutating operations target
currentBatchId. -/
theorem single_current_batch_amended :
    ∀ (s s' : ContractState) (sender : Nat),
      openBatch s sender = Except.ok s' →
      (s.batches s.currentBatchId).isOpen = true →
      s'.currentBatchId = s.currentBatchId + 1 ∧
      (s'.batches s'.currentBatchId).isOpen = true ∧
      s'.batches s.currentBatchId = s.batches s.currentBatchId := by
  intro s s' sender h hopen
  obtain ⟨-, -, hs'⟩ := openBatch_ok s s' sender h
  subst hs'
  refine ⟨by simp [hopen], by simp [hopen, updateF], ?_⟩
  simp only [hopen, if_true]
  exact updateF_ne _ _ _ _ (by omega)

/-- Concrete run of the amended claim C4: opening batch 2 over the open
batch 1 advances the id and does not touch the batch-1 record. -/
theorem single_current_batch_amended_witness :
    sC2.currentBatchId = 2 ∧ (sC2.batches sC2.currentBatchId).isOpen = true ∧
    sC2.batches sB1.currentBatchId = sB1.batches sB1.currentBatchId :=
  ⟨(single_current_batch_amended sB1 sC2 1 rfl rfl).1,
   (single_current_batch_amended sB1 sC2 1 rfl rfl).2.1,
   (single_current_batch_amended sB1 sC2 1 rfl rfl).2.2⟩

/-- Counterexample to claim C5: batch id 1 is opened, closed, and then
openBatch assigns open = true to id 1 again — a previously opened (and
since closed) id is reopened. -/
theorem closed_batch_id_reused_cex :
    (sB1.batches 1).isOpen = true ∧ (sD1.batches 1).isOpen = false ∧
    sD2.currentBatchId = 1 ∧ (sD2.batches 1).isOpen = true :=
  ⟨rfl, rfl, rfl, rfl⟩

/-- Claim C5 as amended: openBatch increments currentBatchId only when the
current batch is open, so it never recreates an id that is open at call
time; but when the current batch is closed (or was never opened) it reuses
the same currentBatchId, recreating that batch with open = true and
zero-handle accumulators — a closed id can be reopened. -/
theorem open_batch_id_reuse_amended :
    ∀ (s s' : ContractState) (sender : Nat),
      openBatch s sender = Except.ok s' →
      ((s.batches s.currentBatchId).isOpen = true →
        s'.currentBatchId = s.currentBatchId + 1) ∧
      ((s.batches s.currentBatchId).isOpen = false →
        s'.currentBatchId = s.currentBatchId ∧
        s'.batches s.currentBatchId =
          ⟨s.currentBatchId, true, CT.enc 0, CT.enc 0, CT.enc 0, CT.enc 0⟩) := by
  intro s s' sender h
  obtain ⟨-, -, hs'⟩ := openBatch_ok s s' sender h
  subst hs'
  constructor
  · intro hopen
    simp [hopen]
  · intro hclosed
    refine ⟨by simp [hclosed], ?_⟩
    simp [hclosed, updateF]

/-- Concrete run of the amended claim C5: after closing batch 1, openBatch
reuses id 1 and recreates it as open with zero accumulators. -/
theorem open_batch_id_reuse_amended_witness :
    sD2.currentBatchId = sD1.currentBatchId ∧
    sD2.batches sD1.currentBatchId =
      ⟨sD1.currentBatchId, true, CT.enc 0, CT.enc 0, CT.enc 0, CT.enc 0⟩ :=
  (open_batch_id_reuse_amended sD1 sD2 1 rfl).2 rfl

/-- Claim C6: every successful generateDungeonSeed stores on the current
batch the handle FHE.add(FHE.mul(strength, agility), intellect) built from
the batch's accumulator handles at call time, leaves the three accumulator
handles unchanged, and the stored seed decrypts to
(strength * agility + intellect) mod 2^32. -/
theorem seed_formula :
    ∀ (s s' : ContractState) (sender now rid : Nat),
      generateDungeonSeed s sender now rid = Except.ok s' →
      (s'.batches s.currentBatchId).dungeonSeed =
        CT.add (CT.mul (s.batches s.currentBatchId).totalEncryptedPartyStrength
                       (s.batches s.currentBatchId).totalEncryptedPartyAgility)
               (s.batches s.currentBatchId).totalEncryptedPartyIntellect ∧
      (s'.batches s.currentBatchId).totalEncryptedPartyStrength =
        (s.batches s.currentBatchId).totalEncryptedPartyStrength ∧
      (s'.batches s.currentBatchId).totalEncryptedPartyAgility =
        (s.batches s.currentBatchId).totalEncryptedPartyAgility ∧
      (s'.batches s.currentBatchId).totalEncryptedPartyIntellect =
        (s.batches s.currentBatchId).totalEncryptedPartyIntellect ∧
      decrypt (s'.batches s.currentBatchId).dungeonSeed =
        (decrypt (s.batches s.currentBatchId).totalEncryptedPartyStrength *
         decrypt (s.batches s.currentBatchId).totalEncryptedPartyAgility +
         decrypt (s.batches s.currentBatchId).totalEncryptedPartyIntellect) % 2 ^ 32 := by
  intro s s' sender now rid h
  obtain ⟨-, -, -, -, hs'⟩ := generateDungeonSeed_ok s s' sender now rid h
  subst hs'
  refine ⟨by simp [updateF], by simp [updateF], by simp [updateF], by simp [updateF], ?_⟩
  simp [updateF, decrypt, Nat.mod_add_mod]

/-- Concrete run of claim C6: over aggregate plaintexts (9, 8, 6) the
stored seed decrypts to 9 * 8 + 6 = 78 and the accumulators are
untouched. -/
theorem seed_formula_witness :
    decrypt (sA5.batches sA4.currentBatchId).dungeonSeed = 78 ∧
    (sA5.batches sA4.currentBatchId).totalEncryptedPartyStrength =
      (sA4.batches sA4.currentBatchId).totalEncryptedPartyStrength := by
  have h := seed_formula sA4 sA5 1 100 42 rfl
  refine ⟨?_, h.2.1⟩
  rw [h.2.2.2.2]
  decide

/-- Claim C7: for a provider calling while not paused, a rate-limited
action fails with CooldownActive exactly when now is strictly before the
last recorded time plus cooldownSeconds (each action kind reading its own
timestamp map); a successful call records now in its own map and leaves
the other action's map untouched; and when the cooldown has elapsed and
the batch is open the call goes through. Failing calls leave no trace, by
the revert semantics of the model. -/
theorem cooldown_gate :
    (∀ (s : ContractState) (sender now : Nat) (vs va vi : CT),
      s.providers sender = true → s.paused = false →
      (submitPartyAttributes s sender now vs va vi = Except.error Err.CooldownActive ↔
        now < s.lastSubmissionTime sender + s.cooldownSeconds)) ∧
    (∀ (s : ContractState) (sender now rid : Nat),
      s.providers sender = true → s.paused = false →
      (generateDungeonSeed s sender now rid = Except.error Err.CooldownActive ↔
        now < s.lastDecryptionRequestTime sender + s.cooldownSeconds)) ∧
    (∀ (s s' : ContractState) (sender now : Nat) (vs va vi : CT),
      submitPartyAttributes s sender now vs va vi = Except.ok s' →
      s'.lastSubmissionTime sender = now ∧
      s'.lastDecryptionRequestTime = s.lastDecryptionRequestTime) ∧
    (∀ (s s' : ContractState) (sender now rid : Nat),
      generateDungeonSeed s sender now rid = Except.ok s' →
      s'.lastDecryptionRequestTime sender = now ∧
      s'.lastSubmissionTime = s.lastSubmissionTime) ∧
    (∀ (s : ContractState) (sender now : Nat) (vs va vi : CT),
      s.providers sender = true → s.paused = false →
      s.lastSubmissionTime sender + s.cooldownSeconds ≤ now →
      (s.batches s.currentBatchId).isOpen = true →
      exceptOk (submitPartyAttributes s sender now vs va vi) = true) := by
  refine ⟨?_, ?_, ?_, ?_, ?_⟩
  · intro s sender now vs va vi hp hpaus
    constructor
    · intro heq
      by_contra hnlt
      simp only [submitPartyAttributes] at heq
      rw [if_neg (by simp [hp]), if_neg (by simp [hpaus]), if_neg hnlt] at heq
      by_cases hop : (s.batches s.currentBatchId).isOpen = false
      · rw [if_pos hop] at heq
        injection heq with heq2
        exact Err.noConfusion heq2
      · rw [if_neg hop] at heq
        exact Except.noConfusion heq
    · intro hlt
      simp only [submitPartyAttributes]
      rw [if_neg (by simp [hp]), if_neg (by simp [hpaus]), if_pos hlt]
  · intro s sender now rid hp hpaus
    constructor
    · intro heq
      by_contra hnlt
      simp only [generateDungeonSeed] at heq
      rw [if_neg (by simp [hp]), if_neg (by simp [hpaus]), if_neg hnlt] at heq
      by_cases hop : (s.batches s.currentBatchId).isOpen = false
      · rw [if_pos hop] at heq
        injection heq with heq2
        exact Err.noConfusion heq2
      · rw [if_neg hop] at heq
        exact Except.noConfusion heq
    · intro hlt
      simp only [generateDungeonSeed]
      rw [if_neg (by simp [hp]), if_neg (by simp [hpaus]), if_pos hlt]
  · intro s s' sender now vs va vi h
    obtain ⟨-, -, -, -, hs'⟩ := submitPartyAttributes_ok s s' sender now vs va vi h
    subst hs'
    exact ⟨by simp [updateF], rfl⟩
  · intro s s' sender now rid h
    obtain ⟨-, -, -, -, hs'⟩ := generateDungeonSeed_ok s s' sender now rid h
    subst hs'
    exact ⟨by simp [updateF], rfl⟩
  · intro s sender now vs va vi hp hpaus hle hop
    simp only [submitPartyAttributes]
    rw [if_neg (by simp [hp]), if_neg (by simp [hpaus]),
      if_neg (Nat.not_lt.mpr hle), if_neg (by simp [hop])]
    rfl

/-- Concrete run of claim C7: provider 1 submitted at time 100 with a
30-second cooldown; a second submission at 129 fails with CooldownActive,
one at exactly 130 succeeds, and the successful first call had recorded
time 100 without touching the seed-generation timestamp. -/
theorem cooldown_gate_witness :
    submitPartyAttributes sA3 1 129 (CT.enc 1) (CT.enc 1) (CT.enc 1)
      = Except.error Err.CooldownActive ∧
    exceptOk (submitPartyAttributes sA3 1 130 (CT.enc 1) (CT.enc 1) (CT.enc 1)) = true ∧
    sA3.lastSubmissionTime 1 = 100 ∧
    sA3.lastDecryptionRequestTime = sA2.lastDecryptionRequestTime :=
  ⟨(cooldown_gate.1 sA3 1 129 (CT.enc 1) (CT.enc 1) (CT.enc 1) rfl rfl).mpr
      (by decide),
   cooldown_gate.2.2.2.2 sA3 1 130 (CT.enc 1) (CT.enc 1) (CT.enc 1) rfl rfl
      (by decide) rfl,
   (cooldown_gate.2.2.1 sA2 sA3 1 100 (CT.enc 5) (CT.enc 3) (CT.enc 4) rfl).1,
   (cooldown_gate.2.2.1 sA2 sA3 1 100 (CT.enc 5) (CT.enc 3) (CT.enc 4) rfl).2⟩

/-- Counterexample to claim C8: after ownership is transferred to address
2, which is not in the provider set, the owner's generateDungeonSeed call
fails with NotProvider although the contract is unpaused, the batch is
open and the cooldown is satisfied — the gate is onlyProvider, not
owner-or-provider. -/
theorem owner_not_provider_cex :
    sE2.owner = 2 ∧ sE2.providers 2 = false ∧ sE2.paused = false ∧
    (sE2.batches sE2.currentBatchId).isOpen = true ∧
    sE2.lastDecryptionRequestTime 2 + sE2.cooldownSeconds ≤ 100 ∧
    generateDungeonSeed sE2 2 100 44 = Except.error Err.NotProvider :=
  ⟨rfl, rfl, rfl, rfl, by decide, rfl⟩

/-- Claim C8 as amended: generateDungeonSeed is gated on provider
membership only — a caller outside the provider set always fails with
NotProvider (owner or not), and a caller in the provider set never fails
with NotProvider. The deployer passes the gate only because the
constructor adds it to the provider set. -/
theorem generate_seed_provider_gated :
    ∀ (s : ContractState) (sender now rid : Nat),
      (s.providers sender = false →
        generateDungeonSeed s sender now rid = Except.error Err.NotProvider) ∧
      (s.providers sender = true →
        generateDungeonSeed s sender now rid ≠ Except.error Err.NotProvider) := by
  intro s sender now rid
  constructor
  · intro hp
    simp only [generateDungeonSeed]
    rw [if_pos hp]
  · intro hp
    simp only [generateDungeonSeed]
    rw [if_neg (by simp [hp])]
    by_cases h2 : s.paused = true
    · rw [if_pos h2]
      simp
    · rw [if_neg h2]
      by_cases h3 : now < s.lastDecryptionRequestTime sender + s.cooldownSeconds
      · rw [if_pos h3]
        simp
      · rw [if_neg h3]
        by_cases h4 : (s.batches s.currentBatchId).isOpen = false
        · rw [if_pos h4]
          simp
        · rw [if_neg h4]
          simp

/-- Concrete run of the amended claim C8: the non-provider owner 2 fails
with NotProvider while the provider 1 does not. -/
theorem generate_seed_provider_gated_witness :
    generateDungeonSeed sE2 2 100 44 = Except.error Err.NotProvider ∧
    generateDungeonSeed sB1 1 100 42 ≠ Except.error Err.NotProvider :=
  ⟨(generate_seed_provider_gated sE2 2 100 44).1 rfl,
   (generate_seed_provider_gated sB1 1 100 42).2 rfl⟩

/-- Counterexample to claim C9: the callback entry point imposes no caller
restriction — the two distinct callers 9 and 10 both succeed on the same
pending request with a valid proof and mutate the state (the context
becomes processed). Whichever single actor is designated the trusted
oracle, at least one of these two callers is not it, yet its call
succeeded. -/
theorem callback_caller_unrestricted_cex :
    myCallback sB2 9 42 (0, 0, 0, 0) true = Except.ok sB3 ∧
    myCallback sB2 10 42 (0, 0, 0, 0) true = Except.ok sB3 ∧
    (9 : Nat) ≠ 10 ∧
    (sB2.decryptionContexts 42).processed = false ∧
    (sB3.decryptionContexts 42).processed = true :=
  ⟨rfl, rfl, by decide, rfl, rfl⟩

/-- Claim C9 as amended: myCallback never inspects the caller — its result
is identical for any two callers; authentication of a decryption response
rests solely on the replay, state-hash and proof checks. -/
theorem callback_sender_irrelevant :
    ∀ (s : ContractState) (sender1 sender2 rid : Nat)
      (clr : Nat × Nat × Nat × Nat) (pv : Bool),
      myCallback s sender1 rid clr pv = myCallback s sender2 rid clr pv := by
  intro s sender1 sender2 rid clr pv
  rfl

/-- Claim C10: after construction the deployer is the owner, the deployer
is in the provider set, the pause flag is false and the cooldown duration
is 30 seconds. -/
theorem constructor_initial_state :
    ∀ sender selfAddr : Nat,
      (constructor sender selfAddr).owner = sender ∧
      (constructor sender selfAddr).providers sender = true ∧
      (constructor sender selfAddr).paused = false ∧
      (constructor sender selfAddr).cooldownSeconds = 30 := by
  intro sender selfAddr
  refine ⟨rfl, ?_, rfl, rfl⟩
  simp [constructor, updateF]

end DungeonGenFHE
